import Mathlib

/-!
Verification of the License State Synchronization Engine of the pf-agent
repository.  The mock remote (`pf_agent/simulators/pingfed_mock.py`), the
REST client (`pf_agent/tools/pf_client.py`), the intent classifier
(`pf_agent/agents/intents.py`) and the seed data
(`pf_agent/simulators/seed_data.py`) are embedded from their Python source.
The service layer (`pf_agent/domain/services.py`: cache, status classifier,
refresh/apply orchestration) is not part of the provided sources; the
definitions for it are modelled from the specification and marked as such.
-/

set_option maxRecDepth 4000

namespace PFAgent

/-! ## Calendar dates

Dates carry no time component; `Date` mirrors a Python `datetime` truncated
to its calendar day, which is the granularity every comparison in the
program uses. -/

structure Date where
  year : Nat
  month : Nat
  day : Nat
deriving DecidableEq, Repr

def isLeapYear (y : Nat) : Bool :=
  (y % 4 == 0 && y % 100 != 0) || y % 400 == 0

def daysInMonth (y m : Nat) : Nat :=
  if m == 2 then (if isLeapYear y then 29 else 28)
  else if m == 4 || m == 6 || m == 9 || m == 11 then 30
  else 31

/-- Validity as `datetime.strptime(s, "%Y-%m-%d")` checks it: year at least
`MINYEAR = 1`, month 1–12, day within the month. -/
def Date.valid (d : Date) : Bool :=
  1 ≤ d.year && d.year ≤ 9999 && 1 ≤ d.month && d.month ≤ 12 &&
    1 ≤ d.day && d.day ≤ daysInMonth d.year d.month

/-- Day number of a civil date, counted from 0000-03-01 (shifted-era civil
calendar).  Total order on dates and day differences both factor through
this map, which is how `timedelta` arithmetic is modelled. -/
def Date.toDays (dt : Date) : Nat :=
  let y := if dt.month ≤ 2 then dt.year - 1 else dt.year
  let era := y / 400
  let yoe := y % 400
  let mp := if dt.month > 2 then dt.month - 3 else dt.month + 9
  let doy := (153 * mp + 2) / 5 + dt.day - 1
  let doe := yoe * 365 + yoe / 4 - yoe / 100 + doy
  era * 146097 + doe

/-- Inverse of `Date.toDays` on valid dates (civil-from-days algorithm). -/
def dateOfDays (z : Nat) : Date :=
  let era := z / 146097
  let doe := z % 146097
  let yoe := (doe - doe / 1460 + doe / 36524 - doe / 146096) / 365
  let doy := doe - (365 * yoe + yoe / 4 - yoe / 100)
  let mp := (5 * doy + 2) / 153
  let d := doy - (153 * mp + 2) / 5 + 1
  let m := if mp < 10 then mp + 3 else mp - 9
  let y := yoe + era * 400
  { year := if m ≤ 2 then y + 1 else y, month := m, day := d }

/-- `datetime + timedelta(days = n)`. -/
def Date.addDays (dt : Date) (n : Nat) : Date :=
  dateOfDays (dt.toDays + n)

def natDigits2 (n : Nat) : String :=
  (if n < 10 then "0" else "") ++ toString n

def natDigits4 (n : Nat) : String :=
  (if n < 10 then "000" else if n < 100 then "00" else if n < 1000 then "0" else "")
    ++ toString n

/-- `strftime("%Y-%m-%d")`. -/
def Date.format (dt : Date) : String :=
  natDigits4 dt.year ++ "-" ++ natDigits2 dt.month ++ "-" ++ natDigits2 dt.day

def digitVal (c : Char) : Nat := c.toNat - '0'.toNat

/-- `datetime.strptime(s, "%Y-%m-%d")`: requires the exact `dddd-dd-dd`
shape (the only shape the simulator ever feeds it) and a valid civil date;
`none` models the `ValueError` it raises otherwise. -/
def parseDate (s : String) : Option Date :=
  match s.data with
  | [y1, y2, y3, y4, '-', m1, m2, '-', d1, d2] =>
    if (y1.isDigit && y2.isDigit && y3.isDigit && y4.isDigit &&
        m1.isDigit && m2.isDigit && d1.isDigit && d2.isDigit) then
      let dt : Date :=
        { year := 1000 * digitVal y1 + 100 * digitVal y2 + 10 * digitVal y3 + digitVal y4
          month := 10 * digitVal m1 + digitVal m2
          day := 10 * digitVal d1 + digitVal d2 }
      if dt.valid then some dt else none
    else none
  | _ => none

/-! ## Status classifier

Modelled from the spec: the Status Classifier (§4.2) lives in
`pf_agent/domain/services.py`, which is not among the provided sources.
`classify(expiryDate, asOf)` returns the signed whole-day count to expiry
and the tier, evaluating the ordered rules `daysToExpiry <= 0 → EXPIRED`,
`daysToExpiry <= WARNING_THRESHOLD_DAYS → WARNING`, else `OK`, first match
winning.  The warning threshold is an injected configuration value. -/

inductive Tier where
  | OK
  | WARNING
  | EXPIRED
deriving DecidableEq, Repr

/-- Modelled from the spec: `classify(expiryDate, asOf) -> (daysToExpiry, tier)`
of §4.2 (source file `domain/services.py` not provided).  Day counts are
whole calendar days, time-of-day ignored. -/
def classify (warningThresholdDays : Int) (expiryDate asOf : Date) : Int × Tier :=
  let daysToExpiry : Int := (expiryDate.toDays : Int) - (asOf.toDays : Int)
  let tier :=
    if daysToExpiry ≤ 0 then Tier.EXPIRED
    else if daysToExpiry ≤ warningThresholdDays then Tier.WARNING
    else Tier.OK
  (daysToExpiry, tier)

/-! ## String scanning (the `re.search` calls of the simulator)

The mock's parsing is four `re.search` calls over the decoded license
content.  Each is embedded as a scanner with Python's leftmost-match
semantics: the earliest position at which the whole pattern matches wins.
`\w` is modelled as ASCII alphanumeric or underscore. -/

def isWordChar (c : Char) : Bool := c.isAlphanum || c == '_'

/-- Python's `\s` class (ASCII part), also the set `str.strip()` removes. -/
def isPySpace (c : Char) : Bool :=
  c == ' ' || c == '\t' || c == '\n' || c == '\r' || c == '\x0b' || c == '\x0c'

/-- `str.strip()`. -/
def pyStrip (s : String) : String :=
  String.mk (((s.data.dropWhile isPySpace).reverse.dropWhile isPySpace).reverse)

/-- The `\d{4}-\d{2}-\d{2}` shape at the head of the list; returns the ten
matched characters.  No boundary is required after the match, exactly as in
the regex. -/
def dateShape : List Char → Option (List Char)
  | y1 :: y2 :: y3 :: y4 :: '-' :: m1 :: m2 :: '-' :: d1 :: d2 :: _ =>
    if y1.isDigit && y2.isDigit && y3.isDigit && y4.isDigit &&
        m1.isDigit && m2.isDigit && d1.isDigit && d2.isDigit then
      some [y1, y2, y3, y4, '-', m1, m2, '-', d1, d2]
    else none
  | _ => none

/-- `re.search(marker ++ r'(\d{4}-\d{2}-\d{2})', s)`: first position where
the literal marker is immediately followed by the date shape; returns the
captured group. -/
def searchMarkerDate (marker : List Char) : List Char → Option (List Char)
  | [] => none
  | s@(_ :: tail) =>
    match (if marker.isPrefixOf s then dateShape (s.drop marker.length) else none) with
    | some g => some g
    | none => searchMarkerDate marker tail

/-- `re.search(marker ++ r'(.+)', s)`: first position where the literal
marker is followed by at least one non-newline character; the greedy group
runs to the end of the line. -/
def searchSuffixLine (marker : List Char) : List Char → Option (List Char)
  | [] => none
  | s@(_ :: tail) =>
    match (if marker.isPrefixOf s then
            match s.drop marker.length with
            | c :: rest => if c == '\n' then none else some (c :: rest.takeWhile (fun x => x != '\n'))
            | [] => none
          else none) with
    | some g => some g
    | none => searchSuffixLine marker tail

/-- `re.search(marker ++ r'(\w+)', s)`: first position where the literal
marker is followed by at least one word character; the greedy group is the
maximal word-character run. -/
def searchWordGroup (marker : List Char) : List Char → Option (List Char)
  | [] => none
  | s@(_ :: tail) =>
    match (if marker.isPrefixOf s then
            match s.drop marker.length with
            | c :: rest => if isWordChar c then some (c :: rest.takeWhile isWordChar) else none
            | [] => none
          else none) with
    | some g => some g
    | none => searchWordGroup marker tail

/-! ## Data shapes shared with the simulator -/

/-- One entry of the simulator's `license_data` dict (seed_data.py). -/
structure LicenseData where
  issuedTo : String
  product : String
  expiryDate : String
  licenseKeyId : String
deriving DecidableEq, Repr

/-- Response model of the `GET/PUT <instance>/license` routes; its fields
are the license payload of §6 — `{issuedTo, product, expiryDate,
licenseKeyId}` (`domain/models.py` is not among the provided sources). -/
structure LicenseView where
  issuedTo : String
  product : String
  expiryDate : String
  licenseKeyId : String
deriving DecidableEq, Repr

def LicenseData.toView (d : LicenseData) : LicenseView :=
  ⟨d.issuedTo, d.product, d.expiryDate, d.licenseKeyId⟩

/-- Modelled from the spec: the agreement resource carries a
"boolean/flag-shaped agreement payload" (§6); `domain/models.py`, which
declares `LicenseAgreement`, is not among the provided sources. -/
structure LicenseAgreement where
  accepted : Bool := false
deriving DecidableEq, Repr

/-- `fastapi.HTTPException`, by its two arguments. -/
structure HTTPError where
  status_code : Nat
  detail : String
deriving DecidableEq, Repr

/-- The simulator's mutable state: the two per-instance dicts initialised in
`PingFederateSimulator.__init__`. -/
structure SimState where
  license_data : String → Option LicenseData
  agreement_data : String → Option LicenseAgreement

/-- `generate_instance_data` (seed_data.py, lines 12–52): deterministic
entries whose expiry dates hang off `base_date = datetime.now()`. -/
def generate_instance_data (base_date : Date) : String → Option LicenseData := fun inst =>
  if inst = "pf1" then
    some ⟨"Acme Corporation", "PingFederate", (base_date.addDays 45).format, "LIC-PROD-ABC123"⟩
  else if inst = "pf2" then
    some ⟨"Acme Corporation", "PingFederate", (base_date.addDays 120).format, "LIC-PROD-DEF456"⟩
  else if inst = "pf3" then
    some ⟨"Acme Corporation", "PingFederate", (base_date.addDays 15).format, "LIC-STAGE-GHI789"⟩
  else if inst = "pf4" then
    some ⟨"Acme Corporation", "PingFederate", (base_date.addDays 90).format, "LIC-DEV-JKL012"⟩
  else if inst = "pf5" then
    some ⟨"Acme Corporation", "PingFederate", (dateOfDays (base_date.toDays - 5)).format, "LIC-DEV-MNO345"⟩
  else none

/-- `PingFederateSimulator.__init__`: seeds `license_data` and one default
`LicenseAgreement()` per seeded instance. -/
def initSimState (base_date : Date) : SimState :=
  { license_data := generate_instance_data base_date
    agreement_data := fun inst =>
      if (generate_instance_data base_date inst).isSome then some {} else none }

/-! ## The simulator's route handlers (pingfed_mock.py) -/

/-- `get_license` (lines 49–59). -/
def get_license (st : SimState) (inst : String) : Except HTTPError LicenseView :=
  match st.license_data inst with
  | none => .error ⟨404, "Instance " ++ inst ++ " not found"⟩
  | some d => .ok d.toView

/-- Lines 74–91 of the `put_license` handler: the expiry candidate — the
first `EXPIRY=`-marker date, else the first `ExpirationDate=`-marker date,
validated by `datetime.strptime` (whose `ValueError` lands in the `except`
clause, modelled by `.error ()`), or the one-year default
`datetime.now() + timedelta(days=365)` when neither marker matches. -/
def newExpiryOf (content : String) (now : Date) : Except Unit String :=
  match (match searchMarkerDate "EXPIRY=".data content.data with
         | some g => some g
         | none => searchMarkerDate "ExpirationDate=".data content.data) with
  | some g => if (parseDate (String.mk g)).isSome then .ok (String.mk g) else .error ()
  | none => .ok (now.addDays 365).format

/-- `put_license` (lines 61–121).  The base64/UTF-8 decoding of
`request.value` is a library call and is modelled by its outcome: `decoded
= none` when `base64.b64decode(request.value).decode('utf-8')` raises (the
`except` clause then answers 400).  `now` stands for `datetime.now()` and
`freshId` for the random 8-character id drawn when the content has no `ID=`
marker.  Exception detail strings are abridged.  All error paths leave the
state exactly as the handler does: nothing is mutated before line 111. -/
def put_license (st : SimState) (inst : String) (decoded : Option String)
    (now : Date) (freshId : String) : Except HTTPError LicenseView × SimState :=
  match st.license_data inst with
  | none => (.error ⟨404, "Instance " ++ inst ++ " not found"⟩, st)
  | some prior =>
    match decoded with
    | none => (.error ⟨400, "Invalid license file: undecodable value"⟩, st)
    | some content =>
      let c := content.data
      match newExpiryOf content now with
      | .error _ => (.error ⟨400, "Invalid license file: invalid date"⟩, st)
      | .ok new_expiry =>
        let new_organization :=
          match searchSuffixLine "Organization=".data c with
          | some g => pyStrip (String.mk g)
          | none => prior.issuedTo
        let license_id :=
          match searchWordGroup "ID=".data c with
          | some g => String.mk g
          | none => freshId
        let newData : LicenseData :=
          { issuedTo := new_organization
            product := prior.product
            expiryDate := new_expiry
            licenseKeyId := "LIC-" ++ license_id }
        (.ok newData.toView,
          { st with license_data := fun i => if i = inst then some newData else st.license_data i })

/-- `get_license_agreement` (lines 123–132). -/
def get_license_agreement (st : SimState) (inst : String) : Except HTTPError LicenseAgreement :=
  match st.agreement_data inst with
  | none => .error ⟨404, "Instance " ++ inst ++ " not found"⟩
  | some a => .ok a

/-- `put_license_agreement` (lines 134–144). -/
def put_license_agreement (st : SimState) (inst : String) (agreement : LicenseAgreement) :
    Except HTTPError LicenseAgreement × SimState :=
  match st.agreement_data inst with
  | none => (.error ⟨404, "Instance " ++ inst ++ " not found"⟩, st)
  | some _ =>
    (.ok agreement,
      { st with agreement_data := fun i => if i = inst then some agreement else st.agreement_data i })

/-! ## REST client (pf_client.py) -/

/-- The body of an HTTP response, as the handler's two parsing steps see
it: not decodable as JSON at all (`response.json()` raises), valid JSON
that is not a conforming license mapping (`LicenseView(**data)` raises), or
a conforming payload. -/
inductive HttpBody where
  | badJson
  | nonConforming
  | conforming (v : LicenseView)
deriving DecidableEq, Repr

/-- Outcomes of a `requests.Session` call relevant to error handling: a
timeout, a connection failure, or an HTTP response carrying a status code
and a body. -/
inductive HttpOutcome where
  | timeout
  | connectionError
  | response (status : Nat) (body : HttpBody)
deriving DecidableEq, Repr

/-- A raised Python exception, identified by its class name — the only
thing an `except SomeClass` handler can dispatch on — plus its message. -/
structure RaisedError where
  cls : String
  msg : String
deriving DecidableEq, Repr

/-- `PFClient.get_license` (pf_client.py lines 18–28): every
`requests.RequestException` — timeout, connection failure,
`raise_for_status` on a 4xx/5xx response, JSON the body decoder rejects —
is caught by the single `except` clause and re-raised as one `RuntimeError`
whose message names the instance and interpolates the cause.  The
`LicenseView(**data)` construction also sits inside the `try`, but what it
raises on a valid-JSON non-conforming body — pydantic's `ValidationError`
for a mapping with wrong or missing fields, `TypeError` for a non-mapping
value; the embedding uses the former class for both — is not a
`requests.RequestException` and propagates uncaught. -/
def PFClient.get_license (instId : String) (outcome : HttpOutcome) :
    Except RaisedError LicenseView :=
  match outcome with
  | .timeout =>
    .error ⟨"RuntimeError", "Failed to get license from " ++ instId ++ ": timeout"⟩
  | .connectionError =>
    .error ⟨"RuntimeError", "Failed to get license from " ++ instId ++ ": connection error"⟩
  | .response s body =>
    if 400 ≤ s then
      .error ⟨"RuntimeError", "Failed to get license from " ++ instId ++ ": HTTP " ++ toString s⟩
    else
      match body with
      | .badJson =>
        .error ⟨"RuntimeError", "Failed to get license from " ++ instId ++ ": invalid JSON"⟩
      | .nonConforming =>
        .error ⟨"ValidationError", "validation error for LicenseView"⟩
      | .conforming v => .ok v

/-! ## Intent classifier (intents.py) -/

/-- `re`'s `IndexError("no such group")`, raised by `match.group(1)` when
the pattern has no capturing group. -/
inductive ReError where
  | noSuchGroup
deriving DecidableEq, Repr

/-- A regex match object, by the two accessors the code uses: the whole
match (`group(0)`) and the first capturing group when the pattern has
one. -/
structure ReMatch where
  group0 : String
  group1 : Option String
deriving DecidableEq, Repr

/-- One entry of the `patterns` list of `extract_instance_hint`: the regex
source text (what `pattern.startswith` inspects) together with its search
behaviour. -/
structure RePattern where
  source : String
  search : List Char → Option ReMatch

/-- `\bpf-\w+-\d+\b` matched at the head of the list (the word boundary
before this position is the caller's concern).  `\w+` cannot cross `-`,
and a shortened greedy run would still end in a word character, so the
greedy `\w+`/`\d+` runs need no backtracking. -/
def pfTokenAt (s : List Char) : Option (List Char) :=
  match s with
  | 'p' :: 'f' :: '-' :: rest =>
    let w := rest.takeWhile isWordChar
    if w.isEmpty then none
    else
      match rest.drop w.length with
      | '-' :: rest2 =>
        let d := rest2.takeWhile Char.isDigit
        if d.isEmpty then none
        else
          match rest2.drop d.length with
          | [] => some ('p' :: 'f' :: '-' :: (w ++ '-' :: d))
          | c :: _ =>
            if isWordChar c then none else some ('p' :: 'f' :: '-' :: (w ++ '-' :: d))
      | _ => none
  | _ => none

def atWordBoundary (prev : Option Char) : Bool :=
  match prev with
  | none => true
  | some p => !isWordChar p

/-- `re.search(r'\bpf-\w+-\d+\b', s)`: leftmost match, scanning with the
previous character tracked for the `\b` assertion. -/
def searchPf (prev : Option Char) : List Char → Option (List Char)
  | [] => none
  | s@(c :: tail) =>
    match (if atWordBoundary prev then pfTokenAt s else none) with
    | some tok => some tok
    | none => searchPf (some c) tail

/-- `\b<kw>\s+(\w+[-\w]*)` matched at the head of the list: the literal
keyword, one or more whitespace characters, then the group — a word
character followed by the maximal run of word characters and hyphens.
Returns (whole match, group 1). -/
def kwGroupAt (kw : List Char) (s : List Char) : Option (List Char × List Char) :=
  if kw.isPrefixOf s then
    let rest := s.drop kw.length
    let sp := rest.takeWhile isPySpace
    if sp.isEmpty then none
    else
      match rest.drop sp.length with
      | c :: rest2 =>
        if isWordChar c then
          let g := c :: rest2.takeWhile (fun x => isWordChar x || x == '-')
          some (kw ++ sp ++ g, g)
        else none
      | [] => none
  else none

/-- `re.search(r'\b<kw>\s+(\w+[-\w]*)', s)`: leftmost match. -/
def searchKw (kw : List Char) (prev : Option Char) : List Char → Option (List Char × List Char)
  | [] => none
  | s@(c :: tail) =>
    match (if atWordBoundary prev then kwGroupAt kw s else none) with
    | some m => some m
    | none => searchKw kw (some c) tail

/-- The `patterns` list of `extract_instance_hint` (intents.py lines
64–69), each with its regex source text. -/
def rePatterns : List RePattern :=
  [ ⟨"\\bpf-\\w+-\\d+\\b",
      fun t => (searchPf none t).map fun tok => ⟨String.mk tok, none⟩⟩,
    ⟨"\\binstance\\s+(\\w+[-\\w]*)",
      fun t => (searchKw "instance".data none t).map fun m => ⟨String.mk m.1, some (String.mk m.2)⟩⟩,
    ⟨"\\bnode\\s+(\\w+[-\\w]*)",
      fun t => (searchKw "node".data none t).map fun m => ⟨String.mk m.1, some (String.mk m.2)⟩⟩,
    ⟨"\\bserver\\s+(\\w+[-\\w]*)",
      fun t => (searchKw "server".data none t).map fun m => ⟨String.mk m.1, some (String.mk m.2)⟩⟩ ]

/-- The `for pattern in patterns` loop of `extract_instance_hint` (lines
71–79): on the first pattern that matches, return `group(0)` if the
pattern's source text starts with the literal `\b(pf-`, else `group(1)` —
which raises `IndexError` when the pattern has no capturing group. -/
def extractLoop : List RePattern → List Char → Except ReError String
  | [], _ => .ok ""
  | p :: ps, t =>
    match p.search t with
    | some m =>
      if "\\b(pf-".data.isPrefixOf p.source.data then .ok m.group0
      else
        match m.group1 with
        | some g => .ok g
        | none => .error .noSuchGroup
    | none => extractLoop ps t

/-- `IntentClassifier.extract_instance_hint` (intents.py lines 61–79),
run on `text.lower()`. -/
def extract_instance_hint (text : String) : Except ReError String :=
  extractLoop rePatterns (text.data.map Char.toLower)

/-! ## Synchronization engine (modelled from the spec)

`pf_agent/domain/services.py`, which implements the License State Cache and
the Synchronization Engine (`LicenseService`), is not among the provided
sources — only its callers (cli.py, crew.py) are.  The definitions below
are modelled from §3, §4.1, §4.4 and §7 of the spec. -/

/-- Modelled from the spec: a cache entry (§3 `LicenseRecord`); the
free-form `environment` label plays no role in any claim and is omitted. -/
structure CacheRecord where
  instanceId : String
  issuedTo : String
  product : String
  licenseKeyId : String
  expiryDate : String
  daysToExpiry : Int
  status : Tier
  lastSyncedAt : Date
deriving DecidableEq, Repr

/-- Modelled from the spec: the error taxonomy of §7. -/
inductive SyncError where
  | unreachable
  | malformed
  | notFound
  | rejected
  | localIO
deriving DecidableEq, Repr

/-- Modelled from the spec: the remote-payload-to-record translation step of
§4.4/§9 — build a `LicenseRecord` from the returned payload, re-deriving
`daysToExpiry`/`status` through the classifier with `asOf = now`; `none`
when the payload's expiry date cannot be parsed (`Malformed` in §7). -/
def recordOfView (W : Int) (now : Date) (inst : String) (v : LicenseView) : Option CacheRecord :=
  (parseDate v.expiryDate).map fun ed =>
    let r := classify W ed now
    { instanceId := inst
      issuedTo := v.issuedTo
      product := v.product
      licenseKeyId := v.licenseKeyId
      expiryDate := v.expiryDate
      daysToExpiry := r.1
      status := r.2
      lastSyncedAt := now }

/-- The License State Cache (§4.1): last known record per instance id;
`none` is the `UNKNOWN` state of an instance never successfully read. -/
abbrev Cache : Type := String → Option CacheRecord

/-- Modelled from the spec: the per-instance outcome of one refresh — a
function of that instance's remote read alone. -/
def refreshOutcome (W : Int) (now : Date) (remote : String → Except SyncError LicenseView)
    (inst : String) : Except SyncError CacheRecord :=
  match remote inst with
  | .error e => .error e
  | .ok v =>
    match recordOfView W now inst v with
    | none => .error .malformed
    | some r => .ok r

/-- Modelled from the spec: `refreshOne` (§4.4) — read the remote license;
on success classify, build the record and write it to the cache; on failure
do not touch the cache and return the failure reason. -/
def refreshOne (W : Int) (now : Date) (remote : String → Except SyncError LicenseView)
    (cache : Cache) (inst : String) : Except SyncError CacheRecord × Cache :=
  match refreshOutcome W now remote inst with
  | .error e => (.error e, cache)
  | .ok r => (.ok r, fun i => if i = inst then some r else cache i)

/-- Modelled from the spec: `refreshAll` (§4.4) fans `refreshOne` out across
every directory entry and waits for all of them, one result per entry, no
early abort.  The spec's fan-out is concurrent; each per-instance outcome
is a function of that instance's own remote call and cache writes are
per-key, so the fold has the same observable behaviour. -/
def refreshAll (W : Int) (now : Date) (remote : String → Except SyncError LicenseView) :
    List String → Cache → List (Except SyncError CacheRecord) × Cache
  | [], cache => ([], cache)
  | inst :: rest, cache =>
    let o := refreshOne W now remote cache inst
    let os := refreshAll W now remote rest o.2
    (o.1 :: os.1, os.2)

/-- Modelled from the spec: `apply` (§4.4) — after the Remote Client write
(whose outcome is `writeResult`), on success re-derive the status from the
returned payload and update the cache exactly as `refreshOne` would; on
failure leave the cache untouched and surface the failure verbatim. -/
def applyLicense (W : Int) (now : Date) (cache : Cache) (inst : String)
    (writeResult : Except SyncError LicenseView) : Except SyncError CacheRecord × Cache :=
  match writeResult with
  | .error e => (.error e, cache)
  | .ok v =>
    match recordOfView W now inst v with
    | none => (.error .malformed, cache)
    | some r => (.ok r, fun i => if i = inst then some r else cache i)

/-- The cache record `apply`/`refreshOne` build for a payload `v` whose
expiry date parses to `pd`: the value `recordOfView` produces. -/
def recordFor (W : Int) (now : Date) (inst : String) (v : LicenseView) (pd : Date) : CacheRecord :=
  { instanceId := inst
    issuedTo := v.issuedTo
    product := v.product
    licenseKeyId := v.licenseKeyId
    expiryDate := v.expiryDate
    daysToExpiry := (classify W pd now).1
    status := (classify W pd now).2
    lastSyncedAt := now }

/-- The spec's phrase "one year from the apply time" read literally: the
same calendar day of the following year.  This definition follows the
spec's words, for comparison with the `timedelta(days=365)` arithmetic the
code performs. -/
def oneYearFrom (d : Date) : Date := { d with year := d.year + 1 }

/-- The failure kind §6/§7 of the spec assigns to each failing read
outcome: timeouts and connection failures are `Unreachable`, an HTTP 404 is
`NotFound` (instance unknown to the remote), an undecodable body is
`Malformed`.  This definition follows the spec's words, for comparison with
the embedded client. -/
def specFailureKind : HttpOutcome → Option SyncError
  | .timeout => some SyncError.unreachable
  | .connectionError => some SyncError.unreachable
  | .response 404 _ => some SyncError.notFound
  | .response _ .badJson => some SyncError.malformed
  | .response _ .nonConforming => some SyncError.malformed
  | _ => none

/-- The claim of C7, as stated: failing `readLicense` calls carry a typed
error, so failures of different spec kinds are distinguishable by the
class of the raised error. -/
def readLicenseDistinguishesKinds : Prop :=
  ∀ (i : String) (o1 o2 : HttpOutcome) (k1 k2 : SyncError) (e1 e2 : RaisedError),
    specFailureKind o1 = some k1 → specFailureKind o2 = some k2 → k1 ≠ k2 →
    PFClient.get_license i o1 = .error e1 → PFClient.get_license i o2 = .error e2 →
    e1.cls ≠ e2.cls

end PFAgent

/-- C1: for every expiry date `d` and reference date `t`, `classify (d, t)`
computes `daysToExpiry` as whole calendar days from `t` to `d`, and the tier
is `EXPIRED` iff `d ≤ t` (day count at most 0), `WARNING` iff the day count
is in `(0, W]`, and `OK` otherwise, the ordered rules making the three cases
exhaustive and mutually exclusive. -/
theorem classify_tier_characterisation (W : Int) (d t : PFAgent.Date) :
    (PFAgent.classify W d t).1 = (d.toDays : Int) - (t.toDays : Int)
    ∧ ((PFAgent.classify W d t).2 = PFAgent.Tier.EXPIRED ↔ d.toDays ≤ t.toDays)
    ∧ ((PFAgent.classify W d t).2 = PFAgent.Tier.WARNING ↔
        t.toDays < d.toDays ∧ (d.toDays : Int) ≤ (t.toDays : Int) + W)
    ∧ ((PFAgent.classify W d t).2 = PFAgent.Tier.OK ↔
        t.toDays < d.toDays ∧ (t.toDays : Int) + W < (d.toDays : Int)) := by
  unfold PFAgent.classify
  refine ⟨rfl, ?_, ?_, ?_⟩ <;>
    · simp only []
      split_ifs with h1 h2 <;> simp <;> omega

namespace PFAgent

/-- A single `refreshOne` step never touches the cache entry of an instance
whose remote read fails, whatever instance the step refreshes. -/
theorem refreshOne_preserves_failed_entry (W : Int) (now : Date)
    (remote : String → Except SyncError LicenseView) (cache : Cache)
    (j inst : String) (e : SyncError) (h : remote inst = .error e) :
    (refreshOne W now remote cache j).2 inst = cache inst := by
  unfold refreshOne
  cases ho : refreshOutcome W now remote j with
  | error _ => rfl
  | ok r =>
    simp only []
    by_cases hij : inst = j
    · subst hij
      unfold refreshOutcome at ho
      rw [h] at ho
      exact absurd ho (by simp)
    · simp [hij]

/-- The outcome list of `refreshAll` is the per-instance outcome map,
independently of the cache it starts from. -/
theorem refreshAll_outcomes (W : Int) (now : Date)
    (remote : String → Except SyncError LicenseView) (dir : List String) (cache : Cache) :
    (refreshAll W now remote dir cache).1 = dir.map (refreshOutcome W now remote) := by
  induction dir generalizing cache with
  | nil => rfl
  | cons j rest ih =>
    unfold refreshAll
    simp only [List.map_cons, List.cons.injEq]
    refine ⟨?_, ih _⟩
    unfold refreshOne
    cases refreshOutcome W now remote j <;> rfl

end PFAgent

/-- C2: for every directory, every pattern of per-instance remote outcomes
and every starting cache, `refreshAll` returns exactly one result per
directory entry; each entry's result is a function of that entry's own
remote outcome alone (so no failure aborts or perturbs the others); and the
cache keeps its prior entry (or `UNKNOWN`, i.e. `none`) for every instance
whose remote read failed. -/
theorem refreshAll_partial_failure_tolerant (W : Int) (now : PFAgent.Date)
    (remote : String → Except PFAgent.SyncError PFAgent.LicenseView)
    (dir : List String) (cache : PFAgent.Cache)
    (inst : String) (e : PFAgent.SyncError) (h : remote inst = .error e) :
    (PFAgent.refreshAll W now remote dir cache).1.length = dir.length
    ∧ (PFAgent.refreshAll W now remote dir cache).1
        = dir.map (PFAgent.refreshOutcome W now remote)
    ∧ (PFAgent.refreshAll W now remote dir cache).2 inst = cache inst := by
  refine ⟨?_, PFAgent.refreshAll_outcomes W now remote dir cache, ?_⟩
  · rw [PFAgent.refreshAll_outcomes]
    exact List.length_map dir _
  · induction dir generalizing cache with
    | nil => rfl
    | cons j rest ih =>
      unfold PFAgent.refreshAll
      simp only []
      rw [ih _]
      exact PFAgent.refreshOne_preserves_failed_entry W now remote cache j inst e h

/-- Witness for C2: five seeded instances, `pf3` forced `Unreachable`, an
empty starting cache — `refreshAll` reports five outcomes, one per
instance, and `pf3` stays `UNKNOWN`. -/
theorem refreshAll_partial_failure_tolerant_witness :
    ((fun i => if i = "pf3" then Except.error PFAgent.SyncError.unreachable
               else Except.ok (PFAgent.LicenseView.mk "Acme Corporation" "PingFederate" "2025-01-01" "LIC-X"))
        "pf3" = .error PFAgent.SyncError.unreachable)
    ∧ ((PFAgent.refreshAll 30 ⟨2024, 6, 1⟩
          (fun i => if i = "pf3" then Except.error PFAgent.SyncError.unreachable
                    else Except.ok (PFAgent.LicenseView.mk "Acme Corporation" "PingFederate" "2025-01-01" "LIC-X"))
          ["pf1", "pf2", "pf3", "pf4", "pf5"] (fun _ => none)).1.length
        = (["pf1", "pf2", "pf3", "pf4", "pf5"] : List String).length
      ∧ (PFAgent.refreshAll 30 ⟨2024, 6, 1⟩
          (fun i => if i = "pf3" then Except.error PFAgent.SyncError.unreachable
                    else Except.ok (PFAgent.LicenseView.mk "Acme Corporation" "PingFederate" "2025-01-01" "LIC-X"))
          ["pf1", "pf2", "pf3", "pf4", "pf5"] (fun _ => none)).1
        = (["pf1", "pf2", "pf3", "pf4", "pf5"] : List String).map
            (PFAgent.refreshOutcome 30 ⟨2024, 6, 1⟩
              (fun i => if i = "pf3" then Except.error PFAgent.SyncError.unreachable
                        else Except.ok (PFAgent.LicenseView.mk "Acme Corporation" "PingFederate" "2025-01-01" "LIC-X")))
      ∧ (PFAgent.refreshAll 30 ⟨2024, 6, 1⟩
          (fun i => if i = "pf3" then Except.error PFAgent.SyncError.unreachable
                    else Except.ok (PFAgent.LicenseView.mk "Acme Corporation" "PingFederate" "2025-01-01" "LIC-X"))
          ["pf1", "pf2", "pf3", "pf4", "pf5"] (fun _ => none)).2 "pf3"
        = (fun _ => (none : Option PFAgent.CacheRecord)) "pf3") :=
  ⟨rfl, refreshAll_partial_failure_tolerant 30 ⟨2024, 6, 1⟩ _ _ _ "pf3"
      PFAgent.SyncError.unreachable rfl⟩

/-- C7 fails on the code: an `Unreachable`-kind failure (timeout) and a
`NotFound`-kind failure (HTTP 404) of `PFClient.get_license` raise the same
error class, `RuntimeError` — the single `except requests.RequestException`
clause collapses every failure kind into one undifferentiated type. -/
theorem pf_client_error_kinds_not_distinguished : ¬ PFAgent.readLicenseDistinguishesKinds := by
  intro hdist
  exact hdist "pf1" .timeout (.response 404 .badJson)
      PFAgent.SyncError.unreachable PFAgent.SyncError.notFound
      ⟨"RuntimeError", "Failed to get license from pf1: timeout"⟩
      ⟨"RuntimeError", "Failed to get license from pf1: HTTP 404"⟩
      rfl rfl (by simp) rfl rfl rfl

/-- C7 amended: every failing `readLicense` call that fails inside the
requests layer — timeout, connection failure, HTTP error status, a body the
JSON decoder rejects — raises the single error class `RuntimeError`, so the
spec's `Unreachable`/`NotFound` kinds (and the undecodable-body `Malformed`
case) are not distinguished by the error's type; the only differently-typed
failure is the leak of the uncaught exception `LicenseView(**data)` raises
on a 2xx valid-JSON non-conforming body.  Every failing call is one of
those two cases. -/
theorem pf_client_failure_is_single_runtime_error (i : String) (o : PFAgent.HttpOutcome)
    (e : PFAgent.RaisedError) (h : PFAgent.PFClient.get_license i o = .error e) :
    e.cls = "RuntimeError"
    ∨ (e.cls = "ValidationError"
        ∧ ∃ s, o = .response s PFAgent.HttpBody.nonConforming ∧ s < 400) := by
  unfold PFAgent.PFClient.get_license at h
  cases o with
  | timeout => cases h; left; rfl
  | connectionError => cases h; left; rfl
  | response s body =>
    simp only [] at h
    split_ifs at h with hs
    · cases h; left; rfl
    · cases body with
      | badJson => cases h; left; rfl
      | nonConforming => cases h; exact Or.inr ⟨rfl, s, rfl, by omega⟩
      | conforming v => cases h

/-- Witness for C7's amended theorem: the 404 failure raises class
`RuntimeError`, and the non-conforming 200 body lands in the leaked
`ValidationError` alternative. -/
theorem pf_client_failure_is_single_runtime_error_witness :
    PFAgent.PFClient.get_license "pf1" (.response 404 .badJson)
      = .error ⟨"RuntimeError", "Failed to get license from pf1: HTTP 404"⟩
    ∧ ((PFAgent.RaisedError.mk "RuntimeError" "Failed to get license from pf1: HTTP 404").cls
          = "RuntimeError"
        ∨ ((PFAgent.RaisedError.mk "RuntimeError" "Failed to get license from pf1: HTTP 404").cls
              = "ValidationError"
            ∧ ∃ s, (PFAgent.HttpOutcome.response 404 PFAgent.HttpBody.badJson)
                = .response s PFAgent.HttpBody.nonConforming ∧ s < 400))
    ∧ PFAgent.PFClient.get_license "pf1" (.response 200 .nonConforming)
      = .error ⟨"ValidationError", "validation error for LicenseView"⟩
    ∧ ((PFAgent.RaisedError.mk "ValidationError" "validation error for LicenseView").cls
          = "RuntimeError"
        ∨ ((PFAgent.RaisedError.mk "ValidationError" "validation error for LicenseView").cls
              = "ValidationError"
            ∧ ∃ s, (PFAgent.HttpOutcome.response 200 PFAgent.HttpBody.nonConforming)
                = .response s PFAgent.HttpBody.nonConforming ∧ s < 400)) :=
  ⟨rfl, pf_client_failure_is_single_runtime_error "pf1" (.response 404 .badJson) _ rfl,
    rfl, pf_client_failure_is_single_runtime_error "pf1" (.response 200 .nonConforming) _ rfl⟩

/-- C10 fails on the code: on input text containing the token `pf-prod-1`,
the first pattern `\bpf-\w+-\d+\b` matches, but the guard compares the
pattern text against the literal `\b(pf-` — which it does not start with —
so the loop falls through to `match.group(1)`, and that raises `IndexError`
(`no such group`) because the pattern has no capturing group, instead of
returning the token. -/
theorem extract_instance_hint_raises_on_pf_token :
    PFAgent.searchPf none "check pf-prod-1".data = some "pf-prod-1".data
    ∧ PFAgent.extract_instance_hint "check pf-prod-1" = .error PFAgent.ReError.noSuchGroup := by
  constructor <;> rfl

/-- On a successful write whose returned payload has a parseable expiry
date, `applyLicense` returns the re-derived record and writes it to the
cache under the instance's key. -/
theorem applyLicense_ok (W : Int) (now : PFAgent.Date) (cache : PFAgent.Cache) (inst : String)
    (v : PFAgent.LicenseView) (pd : PFAgent.Date)
    (h : PFAgent.parseDate v.expiryDate = some pd) :
    PFAgent.applyLicense W now cache inst (.ok v)
      = (.ok (PFAgent.recordFor W now inst v pd),
         fun i => if i = inst then some (PFAgent.recordFor W now inst v pd) else cache i) := by
  unfold PFAgent.applyLicense PFAgent.recordOfView
  simp only [h, Option.map_some]
  rfl

/-- C3: for every known instance and every decoded blob content whose first
`EXPIRY=`-marker names a valid calendar date, `put_license` succeeds, the
returned and the stored `expiryDate` are exactly the marker's date, and the
apply pipeline re-derives `daysToExpiry`/`status` from that new expiry date
through the classifier. -/
theorem put_license_expiry_marker_applied
    (W : Int) (st : PFAgent.SimState) (inst content : String) (g : List Char)
    (now applyNow : PFAgent.Date) (freshId : String)
    (cache : PFAgent.Cache) (prior : PFAgent.LicenseData) (pd : PFAgent.Date)
    (hknown : st.license_data inst = some prior)
    (hsearch : PFAgent.searchMarkerDate "EXPIRY=".data content.data = some g)
    (hparse : PFAgent.parseDate (String.mk g) = some pd) :
    ∃ v : PFAgent.LicenseView,
      (PFAgent.put_license st inst (some content) now freshId).1 = .ok v
      ∧ v.expiryDate = String.mk g
      ∧ ((PFAgent.put_license st inst (some content) now freshId).2.license_data inst).map
          PFAgent.LicenseData.expiryDate = some (String.mk g)
      ∧ ∃ r : PFAgent.CacheRecord,
          (PFAgent.applyLicense W applyNow cache inst (.ok v)).1 = .ok r
          ∧ (PFAgent.applyLicense W applyNow cache inst (.ok v)).2 inst = some r
          ∧ r.expiryDate = String.mk g
          ∧ r.daysToExpiry = (PFAgent.classify W pd applyNow).1
          ∧ r.status = (PFAgent.classify W pd applyNow).2 := by
  unfold PFAgent.put_license
  rw [hknown]
  simp only [PFAgent.newExpiryOf, hsearch, hparse, Option.isSome_some, if_true]
  refine ⟨_, rfl, rfl, by simp, ?_⟩
  rw [applyLicense_ok W applyNow cache inst _ pd hparse]
  exact ⟨_, rfl, by simp, rfl, rfl, rfl⟩

/-- Witness for C3: applying `EXPIRY=2025-01-01` to seeded `pf3` stores and
returns expiry `2025-01-01` and reclassifies from it. -/
theorem put_license_expiry_marker_applied_witness :
    ((PFAgent.initSimState ⟨2024, 1, 1⟩).license_data "pf3"
        = some ⟨"Acme Corporation", "PingFederate", "2024-01-16", "LIC-STAGE-GHI789"⟩)
    ∧ (PFAgent.searchMarkerDate "EXPIRY=".data "EXPIRY=2025-01-01".data
        = some "2025-01-01".data)
    ∧ (PFAgent.parseDate (String.mk "2025-01-01".data) = some ⟨2025, 1, 1⟩)
    ∧ (∃ v : PFAgent.LicenseView,
        (PFAgent.put_license (PFAgent.initSimState ⟨2024, 1, 1⟩) "pf3"
            (some "EXPIRY=2025-01-01") ⟨2024, 6, 1⟩ "AB12CD34").1 = .ok v
        ∧ v.expiryDate = String.mk "2025-01-01".data
        ∧ ((PFAgent.put_license (PFAgent.initSimState ⟨2024, 1, 1⟩) "pf3"
              (some "EXPIRY=2025-01-01") ⟨2024, 6, 1⟩ "AB12CD34").2.license_data "pf3").map
            PFAgent.LicenseData.expiryDate = some (String.mk "2025-01-01".data)
        ∧ ∃ r : PFAgent.CacheRecord,
            (PFAgent.applyLicense 30 ⟨2024, 6, 1⟩ (fun _ => none) "pf3" (.ok v)).1 = .ok r
            ∧ (PFAgent.applyLicense 30 ⟨2024, 6, 1⟩ (fun _ => none) "pf3" (.ok v)).2 "pf3"
                = some r
            ∧ r.expiryDate = String.mk "2025-01-01".data
            ∧ r.daysToExpiry = (PFAgent.classify 30 ⟨2025, 1, 1⟩ ⟨2024, 6, 1⟩).1
            ∧ r.status = (PFAgent.classify 30 ⟨2025, 1, 1⟩ ⟨2024, 6, 1⟩).2) :=
  ⟨rfl, rfl, rfl,
    put_license_expiry_marker_applied 30 (PFAgent.initSimState ⟨2024, 1, 1⟩) "pf3"
      "EXPIRY=2025-01-01" "2025-01-01".data ⟨2024, 6, 1⟩ ⟨2024, 6, 1⟩ "AB12CD34"
      (fun _ => none) ⟨"Acme Corporation", "PingFederate", "2024-01-16", "LIC-STAGE-GHI789"⟩
      ⟨2025, 1, 1⟩ rfl rfl rfl⟩

/-- C4: a failed `put_license` (unknown instance, undecodable blob, invalid
marker date) leaves the simulator's license state exactly as it was — a
subsequent `get_license` answers the pre-apply record field for field — and
a failed write surfaced to `applyLicense` is returned verbatim with the
cache untouched. -/
theorem put_license_failure_leaves_state_unchanged
    (W : Int) (st : PFAgent.SimState) (inst : String) (decoded : Option String)
    (now : PFAgent.Date) (freshId : String) (err : PFAgent.HTTPError)
    (cache : PFAgent.Cache) (e : PFAgent.SyncError)
    (hput : (PFAgent.put_license st inst decoded now freshId).1 = .error err) :
    (PFAgent.put_license st inst decoded now freshId).2 = st
    ∧ PFAgent.get_license (PFAgent.put_license st inst decoded now freshId).2 inst
        = PFAgent.get_license st inst
    ∧ (PFAgent.applyLicense W now cache inst (.error e)).1 = .error e
    ∧ (PFAgent.applyLicense W now cache inst (.error e)).2 = cache := by
  have hstate : (PFAgent.put_license st inst decoded now freshId).2 = st := by
    rcases hld : st.license_data inst with _ | prior
    · unfold PFAgent.put_license
      rw [hld]
    · rcases decoded with _ | content
      · unfold PFAgent.put_license
        rw [hld]
      · rcases hE : PFAgent.newExpiryOf content now with u | ne
        · unfold PFAgent.put_license
          rw [hld]
          simp only [hE]
        · unfold PFAgent.put_license at hput
          rw [hld] at hput
          simp only [hE] at hput
          simp at hput
  exact ⟨hstate, by rw [hstate], rfl, rfl⟩

/-- Witness for C4: a rejected (undecodable) blob against seeded `pf3`
changes nothing, and the surfaced `Rejected` leaves the cache untouched. -/
theorem put_license_failure_leaves_state_unchanged_witness :
    ((PFAgent.put_license (PFAgent.initSimState ⟨2024, 1, 1⟩) "pf3" none ⟨2024, 6, 1⟩
          "AB12CD34").1
        = .error ⟨400, "Invalid license file: undecodable value"⟩)
    ∧ ((PFAgent.put_license (PFAgent.initSimState ⟨2024, 1, 1⟩) "pf3" none ⟨2024, 6, 1⟩
          "AB12CD34").2 = PFAgent.initSimState ⟨2024, 1, 1⟩
      ∧ PFAgent.get_license
          (PFAgent.put_license (PFAgent.initSimState ⟨2024, 1, 1⟩) "pf3" none ⟨2024, 6, 1⟩
            "AB12CD34").2 "pf3"
          = PFAgent.get_license (PFAgent.initSimState ⟨2024, 1, 1⟩) "pf3"
      ∧ (PFAgent.applyLicense 30 ⟨2024, 6, 1⟩ (fun _ => none) "pf3"
            (.error PFAgent.SyncError.rejected)).1 = .error PFAgent.SyncError.rejected
      ∧ (PFAgent.applyLicense 30 ⟨2024, 6, 1⟩ (fun _ => none) "pf3"
            (.error PFAgent.SyncError.rejected)).2 = (fun _ => none)) :=
  ⟨rfl,
    put_license_failure_leaves_state_unchanged 30 (PFAgent.initSimState ⟨2024, 1, 1⟩) "pf3"
      none ⟨2024, 6, 1⟩ "AB12CD34" ⟨400, "Invalid license file: undecodable value"⟩
      (fun _ => none) PFAgent.SyncError.rejected rfl⟩

/-- C5 fails as stated: applying a blob with no expiry marker at
2024-02-28 (a 366-day year ahead) with content `Organization=NewCorp`
succeeds, but the resulting expiry `2025-02-27` is not "exactly one year
from the apply time" (`timedelta(days=365)` is not one calendar year), and
`issuedTo` changes to `NewCorp` because the marker-free condition of the
claim says nothing about the independent `Organization=` marker. -/
theorem put_license_one_year_counterexample :
    PFAgent.searchMarkerDate "EXPIRY=".data "Organization=NewCorp".data = none
    ∧ PFAgent.searchMarkerDate "ExpirationDate=".data "Organization=NewCorp".data = none
    ∧ ((PFAgent.initSimState ⟨2024, 1, 1⟩).license_data "pf3").map PFAgent.LicenseData.issuedTo
        = some "Acme Corporation"
    ∧ ∃ v : PFAgent.LicenseView,
        (PFAgent.put_license (PFAgent.initSimState ⟨2024, 1, 1⟩) "pf3"
            (some "Organization=NewCorp") ⟨2024, 2, 28⟩ "AB12CD34").1 = .ok v
        ∧ v.expiryDate ≠ (PFAgent.oneYearFrom ⟨2024, 2, 28⟩).format
        ∧ v.issuedTo ≠ "Acme Corporation" := by
  refine ⟨rfl, rfl, rfl, _, rfl, ?_, ?_⟩ <;> decide

/-- C5 amended: for every known instance, applying a blob whose decoded
content has no recognizable expiry marker and no `Organization=` marker
succeeds with `expiryDate` exactly 365 days after the apply time (the
code's "one year") and leaves `issuedTo` unchanged from the prior
record. -/
theorem put_license_no_marker_defaults
    (st : PFAgent.SimState) (inst content : String) (now : PFAgent.Date) (freshId : String)
    (prior : PFAgent.LicenseData)
    (hknown : st.license_data inst = some prior)
    (h1 : PFAgent.searchMarkerDate "EXPIRY=".data content.data = none)
    (h2 : PFAgent.searchMarkerDate "ExpirationDate=".data content.data = none)
    (h3 : PFAgent.searchSuffixLine "Organization=".data content.data = none) :
    ∃ v : PFAgent.LicenseView,
      (PFAgent.put_license st inst (some content) now freshId).1 = .ok v
      ∧ v.expiryDate = (now.addDays 365).format
      ∧ v.issuedTo = prior.issuedTo
      ∧ ((PFAgent.put_license st inst (some content) now freshId).2.license_data inst).map
          PFAgent.LicenseData.issuedTo = some prior.issuedTo := by
  unfold PFAgent.put_license
  rw [hknown]
  simp only [PFAgent.newExpiryOf, h1, h2, h3]
  exact ⟨_, rfl, rfl, rfl, by simp⟩

/-- Witness for C5's amended theorem: content `hello` against seeded `pf3`
applied on 2024-06-01 defaults the expiry to 2025-06-01 and keeps the
organization. -/
theorem put_license_no_marker_defaults_witness :
    (PFAgent.initSimState ⟨2024, 1, 1⟩).license_data "pf3"
        = some ⟨"Acme Corporation", "PingFederate", "2024-01-16", "LIC-STAGE-GHI789"⟩
    ∧ PFAgent.searchMarkerDate "EXPIRY=".data "hello".data = none
    ∧ PFAgent.searchMarkerDate "ExpirationDate=".data "hello".data = none
    ∧ PFAgent.searchSuffixLine "Organization=".data "hello".data = none
    ∧ (∃ v : PFAgent.LicenseView,
        (PFAgent.put_license (PFAgent.initSimState ⟨2024, 1, 1⟩) "pf3" (some "hello")
            ⟨2024, 6, 1⟩ "AB12CD34").1 = .ok v
        ∧ v.expiryDate = ((⟨2024, 6, 1⟩ : PFAgent.Date).addDays 365).format
        ∧ v.issuedTo
            = (PFAgent.LicenseData.mk "Acme Corporation" "PingFederate" "2024-01-16"
                "LIC-STAGE-GHI789").issuedTo
        ∧ ((PFAgent.put_license (PFAgent.initSimState ⟨2024, 1, 1⟩) "pf3" (some "hello")
              ⟨2024, 6, 1⟩ "AB12CD34").2.license_data "pf3").map PFAgent.LicenseData.issuedTo
            = some (PFAgent.LicenseData.mk "Acme Corporation" "PingFederate" "2024-01-16"
                "LIC-STAGE-GHI789").issuedTo) :=
  ⟨rfl, rfl, rfl, rfl,
    put_license_no_marker_defaults (PFAgent.initSimState ⟨2024, 1, 1⟩) "pf3" "hello"
      ⟨2024, 6, 1⟩ "AB12CD34"
      ⟨"Acme Corporation", "PingFederate", "2024-01-16", "LIC-STAGE-GHI789"⟩ rfl rfl rfl rfl⟩

/-- C6: for every known instance, a PUT whose blob value cannot be decoded
(base64/UTF-8 failure, modelled as `decoded = none`) fails with HTTP 400 —
the remote's `Rejected` validation failure — returned to the caller, and
the state is unchanged. -/
theorem put_license_undecodable_rejected
    (st : PFAgent.SimState) (inst : String) (now : PFAgent.Date) (freshId : String)
    (prior : PFAgent.LicenseData) (hknown : st.license_data inst = some prior) :
    ∃ err : PFAgent.HTTPError,
      (PFAgent.put_license st inst none now freshId).1 = .error err
      ∧ err.status_code = 400
      ∧ (PFAgent.put_license st inst none now freshId).2 = st := by
  unfold PFAgent.put_license
  rw [hknown]
  exact ⟨_, rfl, rfl, rfl⟩

/-- Witness for C6: an undecodable blob against seeded `pf1` answers 400. -/
theorem put_license_undecodable_rejected_witness :
    (PFAgent.initSimState ⟨2024, 1, 1⟩).license_data "pf1"
        = some ⟨"Acme Corporation", "PingFederate", "2024-02-15", "LIC-PROD-ABC123"⟩
    ∧ (∃ err : PFAgent.HTTPError,
        (PFAgent.put_license (PFAgent.initSimState ⟨2024, 1, 1⟩) "pf1" none ⟨2024, 6, 1⟩
            "AB12CD34").1 = .error err
        ∧ err.status_code = 400
        ∧ (PFAgent.put_license (PFAgent.initSimState ⟨2024, 1, 1⟩) "pf1" none ⟨2024, 6, 1⟩
            "AB12CD34").2 = PFAgent.initSimState ⟨2024, 1, 1⟩) :=
  ⟨rfl,
    put_license_undecodable_rejected (PFAgent.initSimState ⟨2024, 1, 1⟩) "pf1" ⟨2024, 6, 1⟩
      "AB12CD34" ⟨"Acme Corporation", "PingFederate", "2024-02-15", "LIC-PROD-ABC123"⟩ rfl⟩

/-- C9: for every known instance, a blob whose decoded content matches
`EXPIRY=dddd-dd-dd` with an invalid calendar date is rejected with HTTP 400
and the state is unchanged — `datetime.strptime` raises before any
mutation, so the one-year fallback of marker-free content is never
reached. -/
theorem put_license_invalid_date_rejected
    (st : PFAgent.SimState) (inst content : String) (g : List Char)
    (now : PFAgent.Date) (freshId : String) (prior : PFAgent.LicenseData)
    (hknown : st.license_data inst = some prior)
    (hsearch : PFAgent.searchMarkerDate "EXPIRY=".data content.data = some g)
    (hbad : PFAgent.parseDate (String.mk g) = none) :
    ∃ err : PFAgent.HTTPError,
      (PFAgent.put_license st inst (some content) now freshId).1 = .error err
      ∧ err.status_code = 400
      ∧ (PFAgent.put_license st inst (some content) now freshId).2 = st := by
  unfold PFAgent.put_license
  rw [hknown]
  simp only [PFAgent.newExpiryOf, hsearch, hbad, Option.isSome_none, Bool.false_eq_true,
    if_false]
  exact ⟨⟨400, "Invalid license file: invalid date"⟩, rfl, rfl, trivial⟩

/-- Witness for C9: `EXPIRY=2025-13-40` (month 13, day 40) against seeded
`pf3` answers 400 and leaves the state alone. -/
theorem put_license_invalid_date_rejected_witness :
    (PFAgent.initSimState ⟨2024, 1, 1⟩).license_data "pf3"
        = some ⟨"Acme Corporation", "PingFederate", "2024-01-16", "LIC-STAGE-GHI789"⟩
    ∧ PFAgent.searchMarkerDate "EXPIRY=".data "EXPIRY=2025-13-40".data
        = some "2025-13-40".data
    ∧ PFAgent.parseDate (String.mk "2025-13-40".data) = none
    ∧ (∃ err : PFAgent.HTTPError,
        (PFAgent.put_license (PFAgent.initSimState ⟨2024, 1, 1⟩) "pf3"
            (some "EXPIRY=2025-13-40") ⟨2024, 6, 1⟩ "AB12CD34").1 = .error err
        ∧ err.status_code = 400
        ∧ (PFAgent.put_license (PFAgent.initSimState ⟨2024, 1, 1⟩) "pf3"
            (some "EXPIRY=2025-13-40") ⟨2024, 6, 1⟩ "AB12CD34").2
            = PFAgent.initSimState ⟨2024, 1, 1⟩) :=
  ⟨rfl, rfl, rfl,
    put_license_invalid_date_rejected (PFAgent.initSimState ⟨2024, 1, 1⟩) "pf3"
      "EXPIRY=2025-13-40" "2025-13-40".data ⟨2024, 6, 1⟩ "AB12CD34"
      ⟨"Acme Corporation", "PingFederate", "2024-01-16", "LIC-STAGE-GHI789"⟩ rfl rfl rfl⟩

/-- C8: for every known instance and agreement payload, the agreement PUT
returns the payload and a subsequent agreement GET returns exactly it — a
pure store/read round-trip with no derived logic. -/
theorem agreement_put_get_roundtrip
    (st : PFAgent.SimState) (inst : String) (a prior : PFAgent.LicenseAgreement)
    (hknown : st.agreement_data inst = some prior) :
    (PFAgent.put_license_agreement st inst a).1 = .ok a
    ∧ PFAgent.get_license_agreement (PFAgent.put_license_agreement st inst a).2 inst
        = .ok a := by
  unfold PFAgent.put_license_agreement PFAgent.get_license_agreement
  rw [hknown]
  simp

/-- Witness for C8: storing an accepted agreement for seeded `pf2` and
reading it back. -/
theorem agreement_put_get_roundtrip_witness :
    (PFAgent.initSimState ⟨2024, 1, 1⟩).agreement_data "pf2"
        = some ⟨false⟩
    ∧ ((PFAgent.put_license_agreement (PFAgent.initSimState ⟨2024, 1, 1⟩) "pf2" ⟨true⟩).1
          = .ok ⟨true⟩
      ∧ PFAgent.get_license_agreement
          (PFAgent.put_license_agreement (PFAgent.initSimState ⟨2024, 1, 1⟩) "pf2" ⟨true⟩).2
          "pf2" = .ok ⟨true⟩) :=
  ⟨rfl,
    agreement_put_get_roundtrip (PFAgent.initSimState ⟨2024, 1, 1⟩) "pf2" ⟨true⟩ ⟨false⟩ rfl⟩
